import Mathlib

/-!
Shallow embedding of the Chip-8 interpreter (src/Chip8.hpp, src/Chip8.cpp).

Machine integers are modelled as `Nat` with explicit `% 2^w` at the points
where the C++ types wrap: registers are `uint8_t` (operations that can
overflow take `% 256`), `pcRegister`, `indexRegister` and the stack slots
are `uint16_t` (`% 65536`), `sp` is `uint8_t` (`% 256`).  Arrays are modelled
as total maps `Nat → Nat` so that an out-of-bounds C++ array write (which is
undefined behaviour that in practice touches adjacent memory) is visible as
a write at the out-of-range index instead of being masked away.

Each `OP_*` definition is translated line by line from the member function of
the same name in src/Chip8.cpp; the functions read the current instruction
from the `opcode` field of the state exactly as the C++ methods read the
`opcode` member.
-/

def START_ADDRESS : Nat := 0x200

def FONT_ADDRESS : Nat := 0x50

def FIRST_TWELVE_BITS : Nat := 0xFFF

def REGISTER_VF : Nat := 15

def REGISTER_V0 : Nat := 0

/-- The machine state, field for field the data members of `class Chip8`
in src/Chip8.hpp (the C++ random engine members are replaced by passing the
drawn random byte explicitly to the one instruction that consumes it). -/
structure Chip8 where
  memory : Nat → Nat
  registers : Nat → Nat
  pcRegister : Nat
  indexRegister : Nat
  stack : Nat → Nat
  sp : Nat
  timer : Nat
  soundTimer : Nat
  keypad : Nat → Nat
  display : Nat → Nat
  opcode : Nat

/-- Operand field `x`: `(0x0F00U & opcode) >> 8U` in the source. -/
def decodeX (opcode : Nat) : Nat := (0x0F00 &&& opcode) >>> 8

/-- Operand field `y`: `(0x00F0U & opcode) >> 4U` in the source. -/
def decodeY (opcode : Nat) : Nat := (0x00F0 &&& opcode) >>> 4

/-- `OP_00EE` (RET): `pcRegister = stack[sp--];` — reads the slot at the
current `sp`, then decrements the `uint8_t` stack pointer (wrapping
`0 ↦ 255`).  The source performs no emptiness check and reports no error. -/
def OP_00EE (s : Chip8) : Chip8 :=
  { s with pcRegister := s.stack s.sp, sp := (s.sp + 255) % 256 }

/-- `OP_1NNN` (JP addr): `pcRegister = opcode & FIRST_TWELVE_BITS;`. -/
def OP_1NNN (s : Chip8) : Chip8 :=
  { s with pcRegister := s.opcode &&& FIRST_TWELVE_BITS }

/-- `OP_2NNN` (CALL addr): `stack[++sp] = pcRegister;` then
`pcRegister = opcode & FIRST_TWELVE_BITS;`.  The `uint8_t` stack pointer is
pre-incremented (wrapping mod 256) and the write lands at the incremented
index; the source performs no depth check and reports no error. -/
def OP_2NNN (s : Chip8) : Chip8 :=
  { s with
    stack := Function.update s.stack ((s.sp + 1) % 256) s.pcRegister,
    sp := (s.sp + 1) % 256,
    pcRegister := s.opcode &&& FIRST_TWELVE_BITS }

/-- `OP_5XY0` (SE Vx, Vy): the source decodes the two register indices into
locals `Vx` and `Vy` and then tests `if (Vx == Vy)` — it compares the decoded
index fields themselves, not `registers[Vx]` and `registers[Vy]`. -/
def OP_5XY0 (s : Chip8) : Chip8 :=
  if decodeX s.opcode = decodeY s.opcode then
    { s with pcRegister := (s.pcRegister + 2) % 65536 }
  else s

/-- `OP_8XY1` (OR Vx, Vy): `registers[Vx] |= registers[Vy];`. -/
def OP_8XY1 (s : Chip8) : Chip8 :=
  { s with
    registers := Function.update s.registers (decodeX s.opcode)
      (s.registers (decodeX s.opcode) ||| s.registers (decodeY s.opcode)) }

/-- `OP_8XY2` (AND Vx, Vy): `registers[Vx] &= registers[Vy];`. -/
def OP_8XY2 (s : Chip8) : Chip8 :=
  { s with
    registers := Function.update s.registers (decodeX s.opcode)
      (s.registers (decodeX s.opcode) &&& s.registers (decodeY s.opcode)) }

/-- `OP_8XY3` (XOR Vx, Vy): `registers[Vx] ^= registers[Vy];`. -/
def OP_8XY3 (s : Chip8) : Chip8 :=
  { s with
    registers := Function.update s.registers (decodeX s.opcode)
      (s.registers (decodeX s.opcode) ^^^ s.registers (decodeY s.opcode)) }

/-- `OP_8XY4` (ADD Vx, Vy): `uint16_t sum = registers[Vx] + registers[Vy];`
then `registers[REGISTER_VF]` is set to 1 if `sum > 0x00FF` else 0, and
finally `registers[Vx] = sum & 0x00FF;`.  The flag write happens before the
result write, so when x = 15 the result overwrites the flag. -/
def OP_8XY4 (s : Chip8) : Chip8 :=
  let x := decodeX s.opcode
  let y := decodeY s.opcode
  let sum := (s.registers x + s.registers y) % 65536
  let r1 := Function.update s.registers REGISTER_VF (if 0xFF < sum then 1 else 0)
  { s with registers := Function.update r1 x (sum &&& 0xFF) }

/-- `OP_8XY6` (SHR Vx): `uint8_t LSB = registers[Vx] & 1;`, then
`registers[REGISTER_VF] = LSB;`, then `registers[Vx] >>= 1U;`.  The in-place
shift reads the register file after the flag write, so when x = 15 the value
shifted is the just-written flag bit. -/
def OP_8XY6 (s : Chip8) : Chip8 :=
  let x := decodeX s.opcode
  let LSB := s.registers x &&& 1
  let r1 := Function.update s.registers REGISTER_VF LSB
  { s with registers := Function.update r1 x (r1 x >>> 1) }

/-- `OP_8XYE` (SHL Vx): `uint8_t MSB = (registers[Vx] & 0x80U) >> 7U;`, then
`registers[REGISTER_VF] = MSB;`, then `registers[Vx] <<= 1;` (the `uint8_t`
store wraps mod 256).  As with `OP_8XY6`, the in-place shift reads the
register file after the flag write. -/
def OP_8XYE (s : Chip8) : Chip8 :=
  let x := decodeX s.opcode
  let MSB := (s.registers x &&& 0x80) >>> 7
  let r1 := Function.update s.registers REGISTER_VF MSB
  { s with registers := Function.update r1 x ((r1 x <<< 1) % 256) }

/-- `OP_BNNN` (JP V0, addr):
`pcRegister = registers[REGISTER_V0] + (opcode & 0x0FFF);` — the sum is
stored into the `uint16_t` program counter without any 12-bit mask. -/
def OP_BNNN (s : Chip8) : Chip8 :=
  { s with pcRegister := (s.registers REGISTER_V0 + (s.opcode &&& 0xFFF)) % 65536 }

/-- `OP_CXKK` (RND Vx, byte): `registers[Vx] = byte & randByte(randGen);`.
The drawn random byte `r` is passed explicitly in place of the C++ random
engine call. -/
def OP_CXKK (r : Nat) (s : Chip8) : Chip8 :=
  { s with
    registers := Function.update s.registers (decodeX s.opcode)
      ((s.opcode &&& 0x00FF) &&& r) }

/-- Modelled from the spec: `OP_FX1E` in src/Chip8.cpp is missing a statement
terminator after `indexRegister += registers[Vx]` and does not compile as
written; the spec directs that it be treated as unspecified in the source and
that the section 4.2 semantics govern: index register ← index register + Vx,
no flag side effect.  The `uint16_t` index register wraps mod 65536. -/
def OP_FX1E (s : Chip8) : Chip8 :=
  { s with
    indexRegister := (s.indexRegister + s.registers (decodeX s.opcode)) % 65536 }

/-- The memory-copy loop of `LoadROM`:
`for (long i = 0; i < size; i++) memory[START_ADDRESS + i] = buffer[i];`.
The file read that fills `buffer` is external I/O; the loop is modelled on
the byte list that was read.  The source performs no size check before the
loop and reports no error. -/
def loadROMCopy : List Nat → Nat → (Nat → Nat) → (Nat → Nat)
  | [], _, mem => mem
  | b :: rest, i, mem => loadROMCopy rest (i + 1) (Function.update mem (START_ADDRESS + i) b)

/-- `LoadROM` restricted to its effect on the machine state: copy the bytes
read from the file into memory starting at `START_ADDRESS`, unconditionally. -/
def LoadROM (buffer : List Nat) (s : Chip8) : Chip8 :=
  { s with memory := loadROMCopy buffer 0 s.memory }

/-- Modelled from the spec: src/Chip8.cpp contains only the instruction
handlers — the fetch–decode–execute cycle is absent from the source.  Per the
spec, each cycle fetches the word at the program counter, advances the counter
by 2 as part of the fetch, and then runs the decoded handler with that word as
the current opcode (the handlers' own +2 skip adjustments and the
call-then-return round-trip property fix the increment before execution).
Only the two instructions the round-trip property names are dispatched here:
`00EE` and the `2nnn` family. -/
def stepCallRet (w : Nat) (s : Chip8) : Chip8 :=
  let s1 : Chip8 := { s with opcode := w, pcRegister := (s.pcRegister + 2) % 65536 }
  if w = 0x00EE then OP_00EE s1
  else if w >>> 12 = 2 then OP_2NNN s1
  else s1

/-- A zeroed machine state used to build the concrete states of the
evaluation theorems below. -/
def blankState : Chip8 where
  memory := fun _ => 0
  registers := fun _ => 0
  pcRegister := START_ADDRESS
  indexRegister := 0
  stack := fun _ => 0
  sp := 0
  timer := 0
  soundTimer := 0
  keypad := fun _ => 0
  display := fun _ => 0
  opcode := 0

/-- State for the 5xy0 evaluation: opcode 0x5010 (x = 0, y = 1) with
registers V0 = V1 = 7. -/
def c1State : Chip8 :=
  { blankState with opcode := 0x5010, registers := fun i => if i ≤ 1 then 7 else 0 }

/-- C1: the 5xy0 handler compares the decoded index fields, not the register
values: on opcode 0x5010 with V0 = V1 = 7 the two register values are equal,
yet the program counter stays at 0x200 instead of being advanced by 2. -/
theorem c1_index_compare_eval :
    c1State.registers (decodeX c1State.opcode)
      = c1State.registers (decodeY c1State.opcode)
    ∧ c1State.pcRegister = 0x200
    ∧ (OP_5XY0 c1State).pcRegister = 0x200 := by
  refine ⟨by decide, by decide, ?_⟩
  decide

/-- State for the stack-overflow evaluation: sp = 15 (all sixteen slots 0–15
in use under the source's push scheme reaches index 16 next). -/
def c3OverflowState : Chip8 := { blankState with sp := 15 }

/-- C3: the stack operations fault silently.  Returning with an empty stack
(sp = 0) wraps the stack pointer to 255 and reports nothing; calling with
sp = 15 writes the pushed program counter at stack index 16, outside the
declared 16-slot array, again reporting nothing. -/
theorem c3_stack_silent_wrap_eval :
    (OP_00EE blankState).sp = 255
    ∧ (OP_2NNN c3OverflowState).stack 16 = 0x200
    ∧ c3OverflowState.stack 16 = 0
    ∧ (OP_2NNN c3OverflowState).sp = 16 := by
  refine ⟨by decide, by decide, by decide, by decide⟩

/-- State for the Bnnn evaluation: opcode 0xBFFF (nnn = 0xFFF) with V0 = 255. -/
def c4State : Chip8 :=
  { blankState with opcode := 0xBFFF, registers := fun i => if i = 0 then 255 else 0 }

/-- C4: Bnnn applies no 12-bit mask to the jump target: with V0 = 255 and
nnn = 0xFFF the program counter becomes 4350, outside the 0–4095 range the
claim asserts (the masked value would be 254). -/
theorem c4_bnnn_unmasked_eval :
    (OP_BNNN c4State).pcRegister = 4350
    ∧ 4095 < (OP_BNNN c4State).pcRegister
    ∧ (OP_BNNN c4State).pcRegister &&& 0xFFF = 254 := by
  refine ⟨by decide, by decide, by decide⟩

/-- C9: with immediate kk = 0x00 the random instruction stores
`0x00 & randByte = 0` in Vx, for every machine state and every drawn random
byte, and two runs that differ only in the drawn byte produce identical
states. -/
theorem c9_cxkk_zero (s : Chip8) (r r' : Nat) (h : s.opcode &&& 0x00FF = 0) :
    (OP_CXKK r s).registers (decodeX s.opcode) = 0
    ∧ OP_CXKK r s = OP_CXKK r' s := by
  constructor
  · simp [OP_CXKK, h]
  · simp [OP_CXKK, h]

/-- Concrete state for the Cxkk witness: opcode 0xC100 (x = 1, kk = 0). -/
def c9State : Chip8 := { blankState with opcode := 0xC100 }

theorem c9_cxkk_zero_witness :
    c9State.opcode &&& 0x00FF = 0
    ∧ ((OP_CXKK 0xAB c9State).registers (decodeX c9State.opcode) = 0
      ∧ OP_CXKK 0xAB c9State = OP_CXKK 0x37 c9State) :=
  ⟨by decide, c9_cxkk_zero c9State 0xAB 0x37 (by decide)⟩

/-- C10: when the decoded x and y fields coincide, XOR (8xy3) zeroes Vx while
OR (8xy1) and AND (8xy2) leave Vx unchanged. -/
theorem c10_bitwise_self (s : Chip8) (h : decodeX s.opcode = decodeY s.opcode) :
    (OP_8XY3 s).registers (decodeX s.opcode) = 0
    ∧ (OP_8XY1 s).registers (decodeX s.opcode) = s.registers (decodeX s.opcode)
    ∧ (OP_8XY2 s).registers (decodeX s.opcode) = s.registers (decodeX s.opcode) := by
  refine ⟨?_, ?_, ?_⟩ <;> simp [OP_8XY3, OP_8XY1, OP_8XY2, ← h]

/-- Concrete state for the self-operand witness: opcode 0x8113 (x = y = 1)
with V1 = 0xA5. -/
def c10State : Chip8 :=
  { blankState with opcode := 0x8113, registers := fun i => if i = 1 then 0xA5 else 0 }

theorem c10_bitwise_self_witness :
    decodeX c10State.opcode = decodeY c10State.opcode
    ∧ ((OP_8XY3 c10State).registers (decodeX c10State.opcode) = 0
      ∧ (OP_8XY1 c10State).registers (decodeX c10State.opcode)
          = c10State.registers (decodeX c10State.opcode)
      ∧ (OP_8XY2 c10State).registers (decodeX c10State.opcode)
          = c10State.registers (decodeX c10State.opcode)) :=
  ⟨by decide, c10_bitwise_self c10State (by decide)⟩

/-- C7: Fx1E adds Vx to the index register and touches no general-purpose
register — in particular the flag register VF is unchanged.  (Semantics
modelled from the spec because the source's `OP_FX1E` does not compile; see
the doc comment on `OP_FX1E`.) -/
theorem c7_fx1e_spec (s : Chip8)
    (h : s.indexRegister + s.registers (decodeX s.opcode) < 65536) :
    (OP_FX1E s).indexRegister = s.indexRegister + s.registers (decodeX s.opcode)
    ∧ (∀ i, (OP_FX1E s).registers i = s.registers i)
    ∧ (OP_FX1E s).registers REGISTER_VF = s.registers REGISTER_VF := by
  exact ⟨by simp [OP_FX1E, Nat.mod_eq_of_lt h], fun i => rfl, rfl⟩

/-- Concrete state for the Fx1E witness: opcode 0xF51E, index register 0x300,
V5 = 0x20. -/
def c7State : Chip8 :=
  { blankState with
    opcode := 0xF51E,
    indexRegister := 0x300,
    registers := fun i => if i = 5 then 0x20 else 0 }

theorem c7_fx1e_spec_witness :
    c7State.indexRegister + c7State.registers (decodeX c7State.opcode) < 65536
    ∧ ((OP_FX1E c7State).indexRegister
        = c7State.indexRegister + c7State.registers (decodeX c7State.opcode)
      ∧ (∀ i, (OP_FX1E c7State).registers i = c7State.registers i)
      ∧ (OP_FX1E c7State).registers REGISTER_VF = c7State.registers REGISTER_VF) :=
  ⟨by decide, c7_fx1e_spec c7State (by decide)⟩

/-- Concrete state refuting C2 at x = 15: opcode 0x8F04 (x = 15, y = 0) with
V15 = 200 and V0 = 100. -/
def c2State : Chip8 :=
  { blankState with
    opcode := 0x8F04,
    registers := fun i => if i = 15 then 200 else if i = 0 then 100 else 0 }

/-- C2 counterexample: with x = 15 the result write of 8xy4 overwrites the
flag.  Here the pre-instruction sum is 300 > 255, yet VF ends at
300 mod 256 = 44, so "VF = 1 iff the sum exceeds 255" fails. -/
theorem c2_flag_overwritten_cex :
    c2State.registers 15 + c2State.registers 0 = 300
    ∧ (OP_8XY4 c2State).registers REGISTER_VF = 44
    ∧ ¬((OP_8XY4 c2State).registers REGISTER_VF = 1 ↔ 255 < 300) := by
  refine ⟨by decide, by decide, by decide⟩

/-- C2 (amended): for every x ≠ 15, after 8xy4 the flag register holds 1 iff
the pre-instruction widened sum Vx + Vy exceeds 255, and Vx holds
(Vx + Vy) mod 256.  The byte hypotheses record that the C++ registers are
`uint8_t` values. -/
theorem c2_add_carry_spec (s : Chip8) (hx : decodeX s.opcode ≠ REGISTER_VF)
    (ha : s.registers (decodeX s.opcode) < 256)
    (hb : s.registers (decodeY s.opcode) < 256) :
    ((OP_8XY4 s).registers REGISTER_VF = 1
      ↔ 255 < s.registers (decodeX s.opcode) + s.registers (decodeY s.opcode))
    ∧ (OP_8XY4 s).registers (decodeX s.opcode)
      = (s.registers (decodeX s.opcode) + s.registers (decodeY s.opcode)) % 256 := by
  have hsum : (s.registers (decodeX s.opcode) + s.registers (decodeY s.opcode)) % 65536
      = s.registers (decodeX s.opcode) + s.registers (decodeY s.opcode) :=
    Nat.mod_eq_of_lt (by omega)
  have hVF : (OP_8XY4 s).registers REGISTER_VF
      = if 255 < s.registers (decodeX s.opcode) + s.registers (decodeY s.opcode)
        then 1 else 0 := by
    simp only [OP_8XY4, hsum]
    rw [Function.update_noteq (Ne.symm hx), Function.update_same]
  have hX : (OP_8XY4 s).registers (decodeX s.opcode)
      = (s.registers (decodeX s.opcode) + s.registers (decodeY s.opcode)) % 256 := by
    simp only [OP_8XY4, hsum]
    rw [Function.update_same]
    have hm := Nat.and_pow_two_sub_one_eq_mod
      (s.registers (decodeX s.opcode) + s.registers (decodeY s.opcode)) 8
    norm_num at hm
    exact hm
  refine ⟨?_, hX⟩
  rw [hVF]
  by_cases hc : 255 < s.registers (decodeX s.opcode) + s.registers (decodeY s.opcode) <;>
    simp [hc]

/-- Concrete state for the 8xy4 witness: opcode 0x8124 (x = 1, y = 2) with
V1 = 200 and V2 = 100. -/
def c2wState : Chip8 :=
  { blankState with
    opcode := 0x8124,
    registers := fun i => if i = 1 then 200 else if i = 2 then 100 else 0 }

theorem c2_add_carry_spec_witness :
    decodeX c2wState.opcode ≠ REGISTER_VF
    ∧ c2wState.registers (decodeX c2wState.opcode) < 256
    ∧ c2wState.registers (decodeY c2wState.opcode) < 256
    ∧ (((OP_8XY4 c2wState).registers REGISTER_VF = 1
        ↔ 255 < c2wState.registers (decodeX c2wState.opcode)
            + c2wState.registers (decodeY c2wState.opcode))
      ∧ (OP_8XY4 c2wState).registers (decodeX c2wState.opcode)
        = (c2wState.registers (decodeX c2wState.opcode)
            + c2wState.registers (decodeY c2wState.opcode)) % 256) :=
  ⟨by decide, by decide, by decide,
    c2_add_carry_spec c2wState (by decide) (by decide) (by decide)⟩

/-- Concrete state refuting C6 at x = 15: opcode 0x8F06 (x = 15) with
V15 = 2. -/
def c6State : Chip8 :=
  { blankState with
    opcode := 0x8F06,
    registers := fun i => if i = 15 then 2 else 0 }

/-- C6 counterexample: with x = 15 the in-place shift of 8xy6 operates on the
just-written flag bit, not on the pre-shift value.  With V15 = 2 the claim
demands V15 = 2 >> 1 = 1 afterwards, but the code leaves V15 = 0. -/
theorem c6_shift_flag_cex :
    c6State.registers 15 = 2
    ∧ (OP_8XY6 c6State).registers 15 = 0
    ∧ ¬((OP_8XY6 c6State).registers 15 = c6State.registers 15 >>> 1) := by
  refine ⟨by decide, by decide, by decide⟩

/-- C6 (amended): for every x ≠ 15 and every starting Vx, 8xy6 sets VF to
bit 0 of the pre-shift Vx and Vx to the pre-shift value shifted right by 1;
8xyE sets VF to bit 7 of the pre-shift Vx and Vx to (Vx << 1) mod 256; and
for both instructions the resulting register file is independent of the
decoded y field. -/
theorem c6_shift_spec (s : Chip8) (hx : decodeX s.opcode ≠ REGISTER_VF) :
    ((OP_8XY6 s).registers REGISTER_VF = s.registers (decodeX s.opcode) &&& 1
      ∧ (OP_8XY6 s).registers (decodeX s.opcode)
        = s.registers (decodeX s.opcode) >>> 1)
    ∧ ((OP_8XYE s).registers REGISTER_VF
        = (s.registers (decodeX s.opcode) &&& 0x80) >>> 7
      ∧ (OP_8XYE s).registers (decodeX s.opcode)
        = (s.registers (decodeX s.opcode) <<< 1) % 256)
    ∧ (∀ o o' : Nat, decodeX o = decodeX o' →
        (OP_8XY6 { s with opcode := o }).registers
          = (OP_8XY6 { s with opcode := o' }).registers
        ∧ (OP_8XYE { s with opcode := o }).registers
          = (OP_8XYE { s with opcode := o' }).registers) := by
  refine ⟨⟨?_, ?_⟩, ⟨?_, ?_⟩, ?_⟩
  · simp only [OP_8XY6]
    rw [Function.update_noteq (Ne.symm hx), Function.update_same]
  · simp only [OP_8XY6]
    rw [Function.update_same, Function.update_noteq hx]
  · simp only [OP_8XYE]
    rw [Function.update_noteq (Ne.symm hx), Function.update_same]
  · simp only [OP_8XYE]
    rw [Function.update_same, Function.update_noteq hx]
  · intro o o' h
    constructor <;> (simp [OP_8XY6, OP_8XYE, h]; rw [h])

/-- Concrete state for the shift witness: opcode 0x8306 (x = 3) with
V3 = 0xA7 (bit 0 and bit 7 both set). -/
def c6wState : Chip8 :=
  { blankState with
    opcode := 0x8306,
    registers := fun i => if i = 3 then 0xA7 else 0 }

theorem c6_shift_spec_witness :
    decodeX c6wState.opcode ≠ REGISTER_VF
    ∧ (((OP_8XY6 c6wState).registers REGISTER_VF
          = c6wState.registers (decodeX c6wState.opcode) &&& 1
        ∧ (OP_8XY6 c6wState).registers (decodeX c6wState.opcode)
          = c6wState.registers (decodeX c6wState.opcode) >>> 1)
      ∧ ((OP_8XYE c6wState).registers REGISTER_VF
          = (c6wState.registers (decodeX c6wState.opcode) &&& 0x80) >>> 7
        ∧ (OP_8XYE c6wState).registers (decodeX c6wState.opcode)
          = (c6wState.registers (decodeX c6wState.opcode) <<< 1) % 256)
      ∧ (∀ o o' : Nat, decodeX o = decodeX o' →
          (OP_8XY6 { c6wState with opcode := o }).registers
            = (OP_8XY6 { c6wState with opcode := o' }).registers
          ∧ (OP_8XYE { c6wState with opcode := o }).registers
            = (OP_8XYE { c6wState with opcode := o' }).registers)) :=
  ⟨by decide, c6_shift_spec c6wState (by decide)⟩

/-- Addresses strictly below the copy window are untouched by the load loop. -/
theorem loadROMCopy_below (buffer : List Nat) :
    ∀ (i : Nat) (mem : Nat → Nat) (a : Nat), a < START_ADDRESS + i →
      loadROMCopy buffer i mem a = mem a := by
  induction buffer with
  | nil => intro i mem a _; rfl
  | cons b rest ih =>
      intro i mem a ha
      show loadROMCopy rest (i + 1) (Function.update mem (START_ADDRESS + i) b) a = mem a
      rw [ih (i + 1) _ a (by omega)]
      exact Function.update_noteq (by omega) _ _

/-- Byte k of the buffer ends up at address `START_ADDRESS + i + k`. -/
theorem loadROMCopy_get (buffer : List Nat) :
    ∀ (i k : Nat) (mem : Nat → Nat) (hk : k < buffer.length),
      loadROMCopy buffer i mem (START_ADDRESS + i + k) = buffer.get ⟨k, hk⟩ := by
  induction buffer with
  | nil => intro i k mem hk; exact absurd hk (by simp)
  | cons b rest ih =>
      intro i k mem hk
      cases k with
      | zero =>
          show loadROMCopy rest (i + 1) (Function.update mem (START_ADDRESS + i) b)
              (START_ADDRESS + i + 0) = b
          rw [loadROMCopy_below rest (i + 1) _ _ (by omega)]
          simp
      | succ k =>
          show loadROMCopy rest (i + 1) (Function.update mem (START_ADDRESS + i) b)
              (START_ADDRESS + i + (k + 1)) = (b :: rest).get ⟨k + 1, hk⟩
          have he : START_ADDRESS + i + (k + 1) = START_ADDRESS + (i + 1) + k := by omega
          have hk' : k < rest.length := by
            have h := hk; simp only [List.length_cons] at h; omega
          rw [he, ih (i + 1) k _ hk']
          rfl

/-- Byte k of a loaded image is stored at memory address `START_ADDRESS + k`. -/
theorem LoadROM_memory_get (buffer : List Nat) (s : Chip8) (k : Nat)
    (hk : k < buffer.length) :
    (LoadROM buffer s).memory (START_ADDRESS + k) = buffer.get ⟨k, hk⟩ := by
  show loadROMCopy buffer 0 s.memory (START_ADDRESS + k) = buffer.get ⟨k, hk⟩
  have h0 : START_ADDRESS + k = START_ADDRESS + 0 + k := by omega
  rw [h0, loadROMCopy_get buffer 0 k s.memory hk]

/-- C5: the load operation performs no size check.  Loading a 3585-byte image
(one byte beyond the 3584-byte capacity) copies all of it, writing byte 3584
at memory address 0x200 + 3584 = 4096 — outside the 4096-byte memory array —
and returns no error, the state having been modified. -/
theorem c5_loadrom_overflow_eval :
    (LoadROM (List.replicate 3585 7) blankState).memory 4096 = 7
    ∧ blankState.memory 4096 = 0
    ∧ START_ADDRESS + 3584 = 4096
    ∧ 4095 < 4096 := by
  refine ⟨?_, rfl, by norm_num [START_ADDRESS], by omega⟩
  have hk : 3584 < (List.replicate 3585 (7 : Nat)).length := by
    rw [List.length_replicate]
    omega
  have h := LoadROM_memory_get (List.replicate 3585 7) blankState 3584 hk
  rw [List.get_replicate] at h
  have he : (4096 : Nat) = START_ADDRESS + 3584 := by norm_num [START_ADDRESS]
  rw [he]
  exact h

/-- C8: executing a 2nnn call and then (the called subroutine performing no
further stack operations) a 00EE return leaves the program counter at its
value immediately before the call, plus 2, so execution resumes at the
instruction after the call. -/
theorem c8_call_ret_roundtrip (s : Chip8) (nnn : Nat) (h1 : nnn < 4096)
    (h2 : s.sp ≤ 15) (h3 : s.pcRegister + 2 < 65536) :
    (stepCallRet 0x00EE (stepCallRet (0x2000 + nnn) s)).pcRegister
      = s.pcRegister + 2 := by
  have hw1 : ¬(0x2000 + nnn = 0x00EE) := by omega
  have hw2 : (0x2000 + nnn) >>> 12 = 2 := by
    rw [Nat.shiftRight_eq_div_pow]
    have hp : (2 : Nat) ^ 12 = 4096 := by norm_num
    rw [hp]
    omega
  simp [stepCallRet, OP_2NNN, OP_00EE, hw1, hw2, Nat.mod_eq_of_lt h3]

theorem c8_call_ret_roundtrip_witness :
    (0x300 : Nat) < 4096
    ∧ blankState.sp ≤ 15
    ∧ blankState.pcRegister + 2 < 65536
    ∧ (stepCallRet 0x00EE (stepCallRet (0x2000 + 0x300) blankState)).pcRegister
        = blankState.pcRegister + 2 :=
  ⟨by decide, by decide, by decide,
    c8_call_ret_roundtrip blankState 0x300 (by decide) (by decide) (by decide)⟩
